import Mathlib

/-!
Verification development for the rule-based shopping chatbot (app.py).

The core engine is shallowly embedded: pure string/character functions model
the Python regular expressions actually used by the source, the pandas-backed
`search_products` becomes a list pipeline over an explicit catalog, and the
Streamlit session context becomes an explicit `Ctx` value threaded through
`generate_reply`.  Character classes (\s, \d, \w) and `str.lower` are modelled
over ASCII, matching the data the program ships with.  Prices are rationals:
every price in the program is an exact two-decimal value, on which float and
rational comparison and 2-digit formatting agree.
-/

namespace Shop

/-! ### Character and string utilities -/

/-- ASCII model of Python `str.lower`. -/
def lowChar (c : Char) : Char :=
  if 'A' ≤ c ∧ c ≤ 'Z' then Char.ofNat (c.toNat + 32) else c

def lowerL (l : List Char) : List Char := l.map lowChar

/-- Regex \d over ASCII. -/
def isDig (c : Char) : Bool := decide ('0' ≤ c) && decide (c ≤ '9')

/-- Regex \s and Python `str.strip` whitespace, over ASCII. -/
def isSpc (c : Char) : Bool :=
  c == ' ' || c == '\t' || c == '\n' || c == '\r' ||
    c == Char.ofNat 11 || c == Char.ofNat 12

/-- Regex \w over ASCII. -/
def isWordC (c : Char) : Bool :=
  (decide ('a' ≤ c) && decide (c ≤ 'z')) ||
    (decide ('A' ≤ c) && decide (c ≤ 'Z')) || isDig c || c == '_'

def pyStrip (l : List Char) : List Char :=
  ((l.dropWhile isSpc).reverse.dropWhile isSpc).reverse

def isPref : List Char → List Char → Bool
  | [], _ => true
  | _ :: _, [] => false
  | a :: as, b :: bs => a == b && isPref as bs

/-- Substring containment (Python `needle in hay`). -/
def containsSub (needle : List Char) : List Char → Bool
  | [] => isPref needle []
  | c :: t => isPref needle (c :: t) || containsSub needle t

/-- Value of a digit run (Python `int`). -/
def natOfDigits (l : List Char) : Nat :=
  l.foldl (fun n c => 10 * n + (c.toNat - 48)) 0

def strLower (s : String) : String := ⟨lowerL s.data⟩

/-! ### Budget regexes of `extract_filters` (app.py lines 244-245)

re.search(r"(?:under|less|below)\s*\$?\s*(\d+)", text) and
re.search(r"(?:more than|above|over|greater(?: than)?)\s*\$?\s*(\d+)", text).
The keyword alternatives start with distinct characters and the classes
\s, \$, \d are disjoint, so matching at a fixed position is deterministic. -/

/-- Match `\s*\$?\s*(\d+)` at the head of `l`, returning the captured integer. -/
def budTail (l : List Char) : Option Nat :=
  let l1 := l.dropWhile isSpc
  let l2 := match l1 with
    | '$' :: t => t
    | _ => l1
  let l3 := l2.dropWhile isSpc
  let ds := l3.takeWhile isDig
  if ds.isEmpty then none else some (natOfDigits ds)

/-- Match the "less" budget pattern at the head of `l`. -/
def lessHere (l : List Char) : Option Nat :=
  if isPref "under".data l then budTail (l.drop 5)
  else if isPref "less".data l then budTail (l.drop 4)
  else if isPref "below".data l then budTail (l.drop 5)
  else none

/-- Match the "more" budget pattern at the head of `l`.  After "greater",
the greedy optional " than" succeeds exactly when the text continues with
" than"; when it does but no amount follows, the empty alternative also
fails, since \s*\$?\s* cannot absorb the letters of "than". -/
def moreHere (l : List Char) : Option Nat :=
  if isPref "more than".data l then budTail (l.drop 9)
  else if isPref "above".data l then budTail (l.drop 5)
  else if isPref "over".data l then budTail (l.drop 4)
  else if isPref "greater".data l then
    (let r := l.drop 7
     if isPref " than".data r then budTail (r.drop 5) else budTail r)
  else none

/-- `re.search`: first position (left to right) where the matcher succeeds. -/
def scanOpt (f : List Char → Option Nat) : List Char → Option Nat
  | [] => f []
  | c :: t =>
    match f (c :: t) with
    | some n => some n
    | none => scanOpt f t

inductive PriceType where
  | less
  | more
deriving DecidableEq

/-- Budget and direction part of `extract_filters` (lines 243-249):
the "less" pattern is tried first and takes priority. -/
def extractBudgetDir (t : List Char) : Option Nat × Option PriceType :=
  match scanOpt lessHere t with
  | some n => (some n, some PriceType.less)
  | none =>
    match scanOpt moreHere t with
    | some n => (some n, some PriceType.more)
    | none => (none, none)

/-! ### Budget gate of `generate_reply` (line 908)

re.search(r"(?:under|less|below|more than|above|over|greater)\s*\$?(\d+)", text):
no \s* between the optional currency symbol and the digits, and no optional
" than" after "greater". -/

def gateTail (l : List Char) : Bool :=
  let l1 := l.dropWhile isSpc
  let l2 := match l1 with
    | '$' :: t => t
    | _ => l1
  match l2 with
  | c :: _ => isDig c
  | [] => false

def gateKeys : List (List Char) :=
  ["under", "less", "below", "more than", "above", "over", "greater"].map String.data

def gateHere (l : List Char) : Bool :=
  gateKeys.any (fun k => isPref k l && gateTail (l.drop k.length))

def gateScan : List Char → Bool
  | [] => gateHere []
  | c :: t => gateHere (c :: t) || gateScan t

/-! ### Color extraction of `extract_filters` (lines 252-255) -/

def colorsVocab : List String :=
  ["black", "blue", "white", "red", "green", "yellow", "pink", "purple",
    "grey", "gray", "brown", "maroon"]

def extractColor (t : List Char) : Option String :=
  match colorsVocab.find? (fun c => containsSub c.data t) with
  | some c => if c == "gray" then some "grey" else some c
  | none => none

/-! ### difflib.get_close_matches with n=1 and default cutoff 0.6

`SequenceMatcher` is embedded with exact rational arithmetic in place of
floats: all ratios here are fractions with denominator at most the summed
string lengths, so the float comparisons of the source cannot disagree with
the rational ones at the 3/5 cutoff.  `quick_ratio` and `real_quick_ratio`
are upper bounds of `ratio` and therefore do not change which candidates
pass the cutoff; they are omitted.  With the default `isjunk=None` the junk
set is empty, so only the two non-junk extension loops of
`find_longest_match` can fire; `autojunk` popularity pruning applies to the
second sequence when it has at least 200 elements. -/

def countC (c : Char) (l : List Char) : Nat := (l.filter (fun d => d == c)).length

def nthC (l : List Char) (j : Nat) : Char :=
  match l.drop j with
  | c :: _ => c
  | [] => Char.ofNat 0

def isPopular (b : List Char) (c : Char) : Bool :=
  decide (200 ≤ b.length) && decide (b.length / 100 + 1 < countC c b)

/-- Positions of `c` in `b`, ascending, with autojunk pruning. -/
def b2j (b : List Char) (c : Char) : List Nat :=
  if isPopular b c then []
  else (List.range b.length).filter (fun j => nthC b j == c)

def lookupJ (m : List (Nat × Nat)) (j : Nat) : Nat :=
  match m.find? (fun p => p.1 == j) with
  | some p => p.2
  | none => 0

/-- One row (one index `i` into `a`) of the `find_longest_match` dynamic
program: returns the new j2len map and the updated best triple. -/
def flmRow (b : List Char) (blo bhi : Nat) (aChar : Char) (i : Nat)
    (old : List (Nat × Nat)) (best : Nat × Nat × Nat) :
    List (Nat × Nat) × (Nat × Nat × Nat) :=
  ((b2j b aChar).filter (fun j => decide (blo ≤ j) && decide (j < bhi))).foldl
    (fun acc j =>
      let k := (if j == 0 then 0 else lookupJ old (j - 1)) + 1
      let bst := acc.2
      ((j, k) :: acc.1,
        if decide (bst.2.2 < k) then (i + 1 - k, j + 1 - k, k) else bst))
    ([], best)

def extBack (a b : List Char) (alo blo : Nat) :
    Nat → Nat → Nat → Nat → Nat × Nat × Nat
  | 0, i, j, k => (i, j, k)
  | fuel + 1, i, j, k =>
    if decide (alo < i) && decide (blo < j) && (nthC a (i - 1) == nthC b (j - 1)) then
      extBack a b alo blo fuel (i - 1) (j - 1) (k + 1)
    else (i, j, k)

def extFwd (a b : List Char) (ahi bhi : Nat) :
    Nat → Nat → Nat → Nat → Nat × Nat × Nat
  | 0, i, j, k => (i, j, k)
  | fuel + 1, i, j, k =>
    if decide (i + k < ahi) && decide (j + k < bhi) && (nthC a (i + k) == nthC b (j + k)) then
      extFwd a b ahi bhi fuel i j (k + 1)
    else (i, j, k)

/-- `SequenceMatcher.find_longest_match` over the ranges
[alo, ahi) of `a` and [blo, bhi) of `b`. -/
def flm (a b : List Char) (alo ahi blo bhi : Nat) : Nat × Nat × Nat :=
  let dp := (List.range' alo (ahi - alo)).foldl
    (fun (st : List (Nat × Nat) × (Nat × Nat × Nat)) i =>
      flmRow b blo bhi (nthC a i) i st.1 st.2)
    ([], (alo, blo, 0))
  let bk := extBack a b alo blo dp.2.1 dp.2.1 dp.2.2.1 dp.2.2.2
  extFwd a b ahi bhi ahi bk.1 bk.2.1 bk.2.2

/-- Total size of all matching blocks (`get_matching_blocks` recursion);
the sizes are all `ratio` needs. -/
def matchesTotal (a b : List Char) :
    Nat → Nat → Nat → Nat → Nat → Nat
  | 0, _, _, _, _ => 0
  | fuel + 1, alo, ahi, blo, bhi =>
    let m := flm a b alo ahi blo bhi
    if m.2.2 == 0 then 0
    else
      m.2.2 + matchesTotal a b fuel alo m.1 blo m.2.1 +
        matchesTotal a b fuel (m.1 + m.2.2) ahi (m.2.1 + m.2.2) bhi

/-- `SequenceMatcher(None, a, b).ratio()` as an exact rational. -/
def simQ (a b : List Char) : ℚ :=
  let m := matchesTotal a b (a.length + 1) 0 a.length 0 b.length
  if a.length + b.length == 0 then 1
  else (2 * m : ℚ) / (a.length + b.length : ℚ)

/-- Python string `>` (code-point lexicographic). -/
def listGT : List Char → List Char → Bool
  | [], _ => false
  | _ :: _, [] => true
  | a :: as, b :: bs => if a == b then listGT as bs else decide (b < a)

/-- `get_close_matches(word, possibilities, n=1, cutoff=0.6)`: candidates at
or above the cutoff, best ratio first; `heapq.nlargest` on (score, string)
pairs breaks score ties by the lexicographically greater string. -/
def closeMatch1 (t : List Char) (li : List String) : Option String :=
  let scored := li.filterMap (fun x =>
    let r := simQ x.data t
    if decide ((3 : ℚ) / 5 ≤ r) then some (r, x) else none)
  (scored.foldl
    (fun best p =>
      match best with
      | none => some p
      | some q =>
        if decide (q.1 < p.1) || (p.1 == q.1 && listGT p.2.data q.2.data) then some p
        else some q)
    none).map (fun p => p.2)

/-! ### Item extraction and `extract_filters` (lines 239-269) -/

/-- Item part of `extract_filters`: exact lowercased substring containment
in catalog order first, then the fuzzy fallback. -/
def extractItem (items : List String) (t : List Char) : Option String :=
  let li := items.map strLower
  match li.find? (fun i => containsSub i.data t) with
  | some i => some i
  | none => closeMatch1 t li

/-- `extract_filters(text)`: (item, color, budget, price_type). -/
def extract_filters (items : List String) (s : String) :
    Option String × Option String × Option Nat × Option PriceType :=
  let t := lowerL s.data
  let bd := extractBudgetDir t
  (extractItem items t, extractColor t, bd.1, bd.2)

/-! ### Catalog (fallback demo dataset, lines 144-151) and column roles

On the demo table every role used by the core resolves: item, category,
color, price, location, brand.  Price values are exact two-decimal numbers,
kept as rationals. -/

structure Row where
  item : Option String
  category : Option String
  color : Option String
  price : Option ℚ
  location : Option String
  brand : Option String
deriving DecidableEq

def demoRows : List Row :=
  [⟨some "Blue Jeans", some "Bottoms", some "Blue", some ((4999 : ℚ) / 100),
      some "Vancouver", some "DenimCo"⟩,
    ⟨some "Black Sneakers", some "Shoes", some "Black", some ((6999 : ℚ) / 100),
      some "Toronto", some "RunFast"⟩,
    ⟨some "White T-Shirt", some "Tops", some "White", some ((1999 : ℚ) / 100),
      some "Kamloops", some "CottonClub"⟩,
    ⟨some "Red Dress", some "Dresses", some "Red", some ((8999 : ℚ) / 100),
      some "Calgary", some "Elegance"⟩,
    ⟨some "Green Hoodie", some "Outerwear", some "Green", some ((5999 : ℚ) / 100),
      some "Vancouver", some "WarmWear"⟩,
    ⟨some "Yellow Scarf", some "Accessories", some "Yellow", some ((1499 : ℚ) / 100),
      some "Kamloops", some "Silky"⟩]

/-- `df[item_col].dropna().unique()` on the demo table (all distinct). -/
def demoItems : List String :=
  ["Blue Jeans", "Black Sneakers", "White T-Shirt", "Red Dress",
    "Green Hoodie", "Yellow Scarf"]

/-- `df[color_col].dropna().unique()` on the demo table (all distinct). -/
def demoColorVals : List String :=
  ["Blue", "Black", "White", "Red", "Green", "Yellow"]

/-! ### `search_products` (lines 271-289) -/

def priceQ (r : Row) : ℚ := r.price.getD 0

/-- Sort key relation of `sort_values(by=price_col, ascending=True)`. -/
def rowLe (a b : Row) : Prop := priceQ a ≤ priceQ b

instance : DecidableRel rowLe := fun a b =>
  inferInstanceAs (Decidable (priceQ a ≤ priceQ b))

/-- Python truthiness of an optional string (`if item and item_col`). -/
def truthy (o : Option String) : Bool :=
  match o with
  | some s => !(s == "")
  | none => false

/-- `Series.str.contains(re.escape(x), case=False, na=False)`. -/
def strContainsCI (needle : String) (hay : Option String) : Bool :=
  match hay with
  | some s => containsSub (lowerL needle.data) (lowerL s.data)
  | none => false

/-- Item and color filter stages of `search_products` (lines 274-277). -/
def itemColorFilter (rows : List Row) (ic cc : Bool)
    (item color : Option String) : List Row :=
  let r1 := if truthy item && ic then
      rows.filter (fun r => strContainsCI (item.getD "") r.item)
    else rows
  if truthy color && cc then
    r1.filter (fun r => strContainsCI (color.getD "") r.color)
  else r1

/-- Budget filter predicate (lines 278-282).  A NaN price compares False in
pandas, so rows without a price fail an applied comparison; a `price_type`
other than "less"/"more" applies no comparison. -/
def budgetPass (pt : Option PriceType) (b : Nat) (r : Row) : Bool :=
  match pt, r.price with
  | some PriceType.less, some p => decide (p ≤ (b : ℚ))
  | some PriceType.more, some p => decide ((b : ℚ) ≤ p)
  | some _, none => false
  | none, _ => true

/-- `search_products(item, color, budget, price_type)` over catalog `rows`
with column-role presence flags `ic` (item), `cc` (color), `pc` (price).
The ascending price sort is modelled by a stable insertion sort; the source
calls `sort_values` with its default (unstable) quicksort, so only
tie-independent consequences of the sort are claimed. -/
def search_products (rows : List Row) (ic cc pc : Bool)
    (item color : Option String) (budget : Option Nat) (pt : Option PriceType) :
    Option (List Row) :=
  let r2 := itemColorFilter rows ic cc item color
  let r3 := match budget with
    | some b => if pc then r2.filter (budgetPass pt b) else r2
    | none => r2
  let r4 := if pc then r3.filter (fun r => r.price.isSome) else r3
  if r4.isEmpty then none
  else some ((if pc then List.insertionSort rowLe r4 else r4).take 3)

/-! ### `respond_like_bot` (lines 291-307) -/

def pad2 (n : Nat) : String :=
  if n < 10 then "0" ++ toString n else toString n

/-- `f"${p:.2f}"` for an exact two-decimal rational price: on such values
the 2-digit rendering of the float and of the rational agree, and the
half-way tie behaviour of float formatting is never exercised. -/
def moneyStr (p : ℚ) : String :=
  let c : ℤ := (p * 100 + 1 / 2).floor
  "$" ++ (if c < 0 then "-" else "") ++ toString (c.natAbs / 100) ++ "." ++
    pad2 (c.natAbs % 100)

/-- Python `x or 'items'`. -/
def orItems (o : Option String) : String :=
  match o with
  | some s => if s == "" then "items" else s
  | none => "items"

/-- Python `x or 'item'`. -/
def orItem (o : Option String) : String :=
  match o with
  | some s => if s == "" then "item" else s
  | none => "item"

/-- Python `x or ''`. -/
def orEmpty (o : Option String) : String :=
  match o with
  | some s => s
  | none => ""

/-- Python truthiness of the optional budget (`budget` falsy when 0/None). -/
def budTruthy (b : Option Nat) : Bool :=
  match b with
  | some n => !(n == 0)
  | none => false

def introStr (item color : Option String) (budget : Option Nat)
    (pt : Option PriceType) : String :=
  if pt == some PriceType.less && budTruthy budget then
    "Here are some " ++ orEmpty color ++ " " ++ orItems item ++ " under $" ++
      toString (budget.getD 0) ++ " 🛍️"
  else if pt == some PriceType.more && budTruthy budget then
    "Here are some " ++ orEmpty color ++ " " ++ orItems item ++ " over $" ++
      toString (budget.getD 0) ++ " 💎"
  else
    "Here are some " ++ orEmpty color ++ " " ++ orItems item ++
      " I think you’ll love 💫"

def rowLine (ic cc pc catc : Bool) (r : Row) : String :=
  let name := if ic then r.item.getD "nan" else "Item"
  let colorVal := if cc then r.color.getD "nan" else "-"
  let priceVal := if pc then
      (match r.price with
        | some p => moneyStr p
        | none => "N/A")
    else "N/A"
  let catVal := if catc then r.category.getD "nan" else "-"
  "✨ **" ++ name ++ "** — " ++ priceVal ++ "\n" ++
    "   Category: " ++ catVal ++ " | Color: " ++ colorVal ++ "\n\n"

def respond_like_bot (rs : List Row) (item color : Option String)
    (budget : Option Nat) (pt : Option PriceType) (ic cc pc catc : Bool) :
    String :=
  introStr item color budget pt ++ "\n\n" ++
    String.join (rs.map (rowLine ic cc pc catc)) ++
    "Would you like me to show *similar* or *cheaper* options next?"

/-! ### Stop-phrase check of `generate_reply` (lines 902-905)

`re.fullmatch(rf".*\b{re.escape(w)}\b.*", text)`: the phrase occurs with
word boundaries on both sides, and since `.` does not match a newline and
the phrases contain none, the whole text must be newline-free. -/

def wAt (t : List Char) (i : Nat) : Bool :=
  match t.drop i with
  | c :: _ => isWordC c
  | [] => false

def boundaryAt (t : List Char) (i : Nat) : Bool :=
  (if i == 0 then false else wAt t (i - 1)) != wAt t i

def occursAt (t w : List Char) (i : Nat) : Bool :=
  isPref w (t.drop i) && boundaryAt t i && boundaryAt t (i + w.length)

def anyUpTo (p : Nat → Bool) : Nat → Bool
  | 0 => p 0
  | n + 1 => anyUpTo p n || p (n + 1)

def stopHitW (t w : List Char) : Bool :=
  !(t.any (fun c => c == '\n')) && anyUpTo (occursAt t w) t.length

def stopWordsL : List String :=
  ["no", "stop", "thanks", "thank you", "bye", "ok", "okay", "cancel"]

def stopAny (t : List Char) : Bool :=
  stopWordsL.any (fun w => stopHitW t w.data)

/-! ### Dialogue state machine: `generate_reply` (lines 897-951)

The session context is explicit; the step only ever holds one of the four
states the source assigns.  The model additionally records the argument
tuples of the `search_products` calls the turn performs, so that theorems
can speak about which search, if any, was run. -/

inductive Step where
  | greet
  | askItem
  | askColor
  | askBudget
deriving DecidableEq

structure Ctx where
  item : Option String
  color : Option String
  budget : Option Nat
  price_type : Option PriceType
  step : Step
deriving DecidableEq

structure SearchCall where
  item : Option String
  color : Option String
  budget : Option Nat
  price_type : Option PriceType
deriving DecidableEq

structure ReplyOut where
  ctx : Ctx
  reply : String
  calls : List SearchCall
deriving DecidableEq

def resetCtx : Ctx := ⟨none, none, none, none, Step.greet⟩

def farewellMsg : String := "Alright 👋 Have a wonderful shopping day!"

def greetMsg : String :=
  "Hey there 👋! What are you shopping for today? (e.g., jeans, shoes, dresses)"

def budgetAskMsg : String :=
  "Great! 💕 What’s your budget range? (e.g., under 100 or more than 150)"

def noRangeMsg (item : Option String) : String :=
  "I couldn’t find any " ++ orItems item ++ " in that range 😅"

def noRange2Msg : String :=
  "Hmm, I didn’t find anything in that range 😕 Maybe try another color or price range?"

/-- Render a search result the way the two searching branches do:
`if results is not None and not results.empty` (line 913/938). -/
def searchReply (res : Option (List Row)) (item color : Option String)
    (budget : Option Nat) (pt : Option PriceType) (noMatch : String) : String :=
  match res with
  | some rs =>
    if rs.isEmpty then noMatch
    else respond_like_bot rs item color budget pt true true true true
  | none => noMatch

def generate_reply (ctx : Ctx) (input : String) : ReplyOut :=
  let t := pyStrip (lowerL input.data)
  if stopAny t then ⟨resetCtx, farewellMsg, []⟩
  else if gateScan t then
    let ex := extract_filters demoItems ⟨t⟩
    let b := ex.2.2.1
    let pt := ex.2.2.2
    let ctx2 : Ctx := { ctx with budget := b, price_type := pt }
    let res := search_products demoRows true true true ctx.item ctx.color b pt
    ⟨ctx2, searchReply res ctx.item ctx.color b pt (noRangeMsg ctx.item),
      [⟨ctx.item, ctx.color, b, pt⟩]⟩
  else
    match ctx.step with
    | Step.greet => ⟨{ ctx with step := Step.askItem }, greetMsg, []⟩
    | Step.askItem =>
      let ex := extract_filters demoItems ⟨t⟩
      ⟨{ ctx with item := ex.1, color := ex.2.1, step := Step.askColor },
        "Nice choice! 🎯 Do you have a color preference for your " ++
          orItem ex.1 ++ "?", []⟩
    | Step.askColor =>
      let ex := extract_filters demoItems ⟨t⟩
      let ctx2 : Ctx := match ex.2.1 with
        | some c => { ctx with color := some c, step := Step.askBudget }
        | none => { ctx with step := Step.askBudget }
      ⟨ctx2, budgetAskMsg, []⟩
    | Step.askBudget =>
      let ex := extract_filters demoItems ⟨t⟩
      let b := ex.2.2.1
      let pt := ex.2.2.2
      let ctx2 : Ctx := { ctx with budget := b, price_type := pt }
      let res := search_products demoRows true true true ctx2.item ctx2.color b pt
      ⟨ctx2, searchReply res ctx2.item ctx2.color b pt noRange2Msg,
        [⟨ctx2.item, ctx2.color, b, pt⟩]⟩

/-! ### `find_product` (lines 204-237), over the demo catalog -/

def find_product (s : String) : Option Row :=
  let t := lowerL s.data
  let cm := demoColorVals.find? (fun c => containsSub (lowerL c.data) t)
  let im0 := demoItems.find? (fun i => containsSub (lowerL i.data) t)
  let im := match im0 with
    | some i => some i
    | none =>
      match closeMatch1 t (demoItems.map strLower) with
      | some hit => demoItems.find? (fun i => strLower i == hit)
      | none => none
  match im with
  | some i =>
    let f1 := demoRows.filter (fun r => strContainsCI i r.item)
    let f2 := match cm with
      | some c => f1.filter (fun r => strContainsCI c r.color)
      | none => f1
    match f2 with
    | [] => none
    | r :: _ => some r
  | none => none

/-! ### Compare Products handler (lines 350-374)

`re.split(r"\s+vs\s+|\s+and\s+", text)`: at a given position the leading
`\s+` is a maximal whitespace run (a shorter run would have to continue
with "vs"/"and" starting at a whitespace character), so separator matching
is deterministic. -/

def wsRun (l : List Char) : Nat := (l.takeWhile isSpc).length

/-- Length of the separator match starting exactly here, if any. -/
def sepAt (l : List Char) : Option Nat :=
  let w := wsRun l
  if w == 0 then none
  else
    let r := l.drop w
    let p1 : Option Nat :=
      if isPref "vs".data r then
        (let w2 := wsRun (r.drop 2)
         if w2 == 0 then none else some (w + 2 + w2))
      else none
    match p1 with
    | some n => some n
    | none =>
      if isPref "and".data r then
        (let w2 := wsRun (r.drop 3)
         if w2 == 0 then none else some (w + 3 + w2))
      else none

def splitAux : Nat → List Char → List Char → List (List Char)
  | 0, acc, _ => [acc.reverse]
  | fuel + 1, acc, l =>
    match sepAt l with
    | some n => acc.reverse :: splitAux fuel [] (l.drop n)
    | none =>
      match l with
      | [] => [acc.reverse]
      | c :: t => splitAux fuel (c :: acc) t

def splitSegs (l : List Char) : List (List Char) := splitAux (l.length + 1) [] l

inductive CompOutcome where
  | table (p1 p2 : Row) (tbl : List (String × List String))
  | warn
  | info
deriving DecidableEq

/-- Python dict-literal insertion: a repeated key keeps its position and
takes the later value. -/
def dictInsert (l : List (String × List String)) (k : String)
    (v : List String) : List (String × List String) :=
  if l.any (fun p => p.1 == k) then
    l.map (fun p => if p.1 == k then (k, v) else p)
  else l ++ [(k, v)]

def rowKey (r : Row) : String :=
  r.item.getD "nan" ++ " (" ++ r.color.getD "nan" ++ ")"

def rowVals (r : Row) : List String :=
  [(match r.price with
    | some p => moneyStr p
    | none => "$nan"),
    r.color.getD "nan", r.category.getD "nan"]

def compTable (p1 p2 : Row) : List (String × List String) :=
  dictInsert
    (dictInsert [("Attribute", ["Price", "Color", "Category"])]
      (rowKey p1) (rowVals p1))
    (rowKey p2) (rowVals p2)

/-- The Compare Products turn: split, resolve both halves, and either show
the comparison, warn that both items were not found, or explain the format. -/
def compare_handler (input : String) : CompOutcome :=
  let segs := splitSegs (lowerL input.data)
  if 2 ≤ segs.length then
    match find_product ⟨pyStrip (segs.headD [])⟩,
        find_product ⟨pyStrip ((segs.drop 1).headD [])⟩ with
    | some p1, some p2 => CompOutcome.table p1 p2 (compTable p1 p2)
    | some _, none => CompOutcome.warn
    | none, some _ => CompOutcome.warn
    | none, none => CompOutcome.warn
  else CompOutcome.info

instance : IsTotal Row rowLe :=
  ⟨fun a b => le_total (priceQ a) (priceQ b)⟩

instance : IsTrans Row rowLe :=
  ⟨fun _ _ _ h1 h2 => le_trans h1 h2⟩

/-! ### `re.search` scan lemmas -/

theorem scanOpt_of_hit (f : List Char → Option Nat) :
    ∀ (t : List Char) (i n : Nat), f (t.drop i) = some n →
      (∀ j, j < i → f (t.drop j) = none) → scanOpt f t = some n := by
  intro t
  induction t with
  | nil =>
    intro i n h _
    rw [List.drop_nil] at h
    simp [scanOpt, h]
  | cons c t ih =>
    intro i n h hmin
    cases i with
    | zero =>
      rw [List.drop_zero] at h
      simp [scanOpt, h]
    | succ i =>
      have h0 : f (c :: t) = none := by
        have := hmin 0 (Nat.succ_pos i)
        rwa [List.drop_zero] at this
      have hrec : scanOpt f t = some n := by
        apply ih i n
        · rwa [List.drop_succ_cons] at h
        · intro j hj
          have := hmin (j + 1) (Nat.succ_lt_succ hj)
          rwa [List.drop_succ_cons] at this
      simp [scanOpt, h0, hrec]

theorem scanOpt_of_none (f : List Char → Option Nat) :
    ∀ (t : List Char), (∀ i, f (t.drop i) = none) → scanOpt f t = none := by
  intro t
  induction t with
  | nil =>
    intro h
    have := h 0
    rw [List.drop_zero] at this
    simp [scanOpt, this]
  | cons c t ih =>
    intro h
    have h0 : f (c :: t) = none := by
      have := h 0
      rwa [List.drop_zero] at this
    have hrec : scanOpt f t = none := by
      apply ih
      intro i
      have := h (i + 1)
      rwa [List.drop_succ_cons] at this
    simp [scanOpt, h0, hrec]

/-- C1.  For every utterance, `extract_filters` returns budget/direction
per the two budget regexes: a "less" match anywhere yields direction less
with the leftmost match's integer; with no "less" match, a "more" match
yields direction more with the leftmost match's integer (so "less" phrasing
takes priority when both families match); with neither, both are null. -/
theorem extract_filters_budget_priority (items : List String) (s : String) :
    (∀ n i, lessHere ((lowerL s.data).drop i) = some n →
        (∀ j, j < i → lessHere ((lowerL s.data).drop j) = none) →
        (extract_filters items s).2.2.1 = some n ∧
          (extract_filters items s).2.2.2 = some PriceType.less) ∧
    ((∀ i, lessHere ((lowerL s.data).drop i) = none) →
      ∀ n i, moreHere ((lowerL s.data).drop i) = some n →
        (∀ j, j < i → moreHere ((lowerL s.data).drop j) = none) →
        (extract_filters items s).2.2.1 = some n ∧
          (extract_filters items s).2.2.2 = some PriceType.more) ∧
    ((∀ i, lessHere ((lowerL s.data).drop i) = none) →
      (∀ i, moreHere ((lowerL s.data).drop i) = none) →
      (extract_filters items s).2.2.1 = none ∧
        (extract_filters items s).2.2.2 = none) := by
  have e1 : (extract_filters items s).2.2.1 =
      (extractBudgetDir (lowerL s.data)).1 := rfl
  have e2 : (extract_filters items s).2.2.2 =
      (extractBudgetDir (lowerL s.data)).2 := rfl
  refine ⟨?_, ?_, ?_⟩
  · intro n i h hmin
    have hs := scanOpt_of_hit lessHere (lowerL s.data) i n h hmin
    rw [e1, e2]
    simp [extractBudgetDir, hs]
  · intro hless n i h hmin
    have hs1 := scanOpt_of_none lessHere (lowerL s.data) hless
    have hs2 := scanOpt_of_hit moreHere (lowerL s.data) i n h hmin
    rw [e1, e2]
    simp [extractBudgetDir, hs1, hs2]
  · intro hless hmore
    have hs1 := scanOpt_of_none lessHere (lowerL s.data) hless
    have hs2 := scanOpt_of_none moreHere (lowerL s.data) hmore
    rw [e1, e2]
    simp [extractBudgetDir, hs1, hs2]

theorem extract_filters_budget_priority_witness :
    (extract_filters demoItems "under 5").2.2.1 = some 5 ∧
      (extract_filters demoItems "under 5").2.2.2 = some PriceType.less :=
  (extract_filters_budget_priority demoItems "under 5").1 5 0 (by decide)
    (fun j hj => absurd hj (Nat.not_lt_zero j))

/-- C2.  With a price column and no filters, `search_products` returns
`None` when no row has a parseable price, and otherwise the 3 cheapest
priced rows (all of them when fewer than 3), ascending by price: the result
lists exactly the `min 3 n` smallest prices of the priced sub-catalog.
The statement is phrased on the price multiset so it does not depend on
how the underlying sort orders equal-price rows. -/
theorem search_products_default_cheapest (rows : List Row) (ic cc : Bool) :
    (rows.filter (fun r => r.price.isSome) = [] →
      search_products rows ic cc true none none none none = none) ∧
    (rows.filter (fun r => r.price.isSome) ≠ [] →
      ∃ l, search_products rows ic cc true none none none none = some l ∧
        l.length = min 3 (rows.filter (fun r => r.price.isSome)).length ∧
        (∀ r, r ∈ l → r ∈ rows.filter (fun r => r.price.isSome)) ∧
        List.Pairwise rowLe l ∧
        l.map priceQ =
          (List.insertionSort (· ≤ ·)
            ((rows.filter (fun r => r.price.isSome)).map priceQ)).take 3) := by
  have hicf : itemColorFilter rows ic cc none none = rows := by
    simp [itemColorFilter, truthy]
  have hu : search_products rows ic cc true none none none none =
      (if (rows.filter (fun r => r.price.isSome)).isEmpty then none
        else some ((List.insertionSort rowLe
          (rows.filter (fun r => r.price.isSome))).take 3)) := by
    simp [search_products, hicf]
  constructor
  · intro h
    rw [hu, h]
    simp
  · intro h
    have hne : (rows.filter (fun r => r.price.isSome)).isEmpty = false := by
      simpa [List.isEmpty_iff] using h
    refine ⟨(List.insertionSort rowLe (rows.filter (fun r => r.price.isSome))).take 3,
      ?_, ?_, ?_, ?_, ?_⟩
    · rw [hu, hne]
      simp
    · rw [List.length_take,
        (List.perm_insertionSort rowLe (rows.filter (fun r => r.price.isSome))).length_eq]
    · intro r hr
      exact ((List.perm_insertionSort rowLe
        (rows.filter (fun r => r.price.isSome))).mem_iff).mp (List.mem_of_mem_take hr)
    · exact List.Pairwise.sublist (List.take_sublist 3 _)
        (List.sorted_insertionSort rowLe (rows.filter (fun r => r.price.isSome)))
    · have hmt : ((List.insertionSort rowLe
          (rows.filter (fun r => r.price.isSome))).take 3).map priceQ =
          ((List.insertionSort rowLe
            (rows.filter (fun r => r.price.isSome))).map priceQ).take 3 :=
        List.map_take priceQ _ 3
      have hsorted1 : List.Pairwise (fun a b : ℚ => a ≤ b)
          ((List.insertionSort rowLe
            (rows.filter (fun r => r.price.isSome))).map priceQ) :=
        List.Pairwise.map priceQ (fun _ _ hab => hab)
          (List.sorted_insertionSort rowLe (rows.filter (fun r => r.price.isSome)))
      have hperm : ((List.insertionSort rowLe
            (rows.filter (fun r => r.price.isSome))).map priceQ).Perm
          ((rows.filter (fun r => r.price.isSome)).map priceQ) :=
        (List.perm_insertionSort rowLe (rows.filter (fun r => r.price.isSome))).map priceQ
      have h2sorted : List.Pairwise (fun a b : ℚ => a ≤ b)
          (List.insertionSort (· ≤ ·)
            ((rows.filter (fun r => r.price.isSome)).map priceQ)) :=
        List.sorted_insertionSort (· ≤ ·) _
      have h2perm : (List.insertionSort (· ≤ ·)
            ((rows.filter (fun r => r.price.isSome)).map priceQ)).Perm
          ((rows.filter (fun r => r.price.isSome)).map priceQ) :=
        List.perm_insertionSort (· ≤ ·) _
      have heq : (List.insertionSort rowLe
            (rows.filter (fun r => r.price.isSome))).map priceQ =
          List.insertionSort (· ≤ ·)
            ((rows.filter (fun r => r.price.isSome)).map priceQ) :=
        List.eq_of_perm_of_sorted (hperm.trans h2perm.symm) hsorted1 h2sorted
      rw [hmt, heq]

theorem search_products_default_cheapest_witness :
    ∃ l, search_products demoRows true true true none none none none = some l ∧
      l.length = min 3 (demoRows.filter (fun r => r.price.isSome)).length ∧
      (∀ r, r ∈ l → r ∈ demoRows.filter (fun r => r.price.isSome)) ∧
      List.Pairwise rowLe l ∧
      l.map priceQ =
        (List.insertionSort (· ≤ ·)
          ((demoRows.filter (fun r => r.price.isSome)).map priceQ)).take 3 :=
  (search_products_default_cheapest demoRows true true).2 (by decide)

/-- C4.  The budget comparisons of `search_products` are `<=` and `>=`,
both inclusive: a row priced exactly at the budget passes the budget filter
for both directions, and on any catalog, after any item/color filtering,
the rows passing both direction filters at budget `b` are exactly the rows
priced exactly `b`. -/
theorem budget_filter_inclusive_boundary :
    (∀ (p : ℚ) (b : Nat) (r : Row), r.price = some p → p = (b : ℚ) →
      budgetPass (some PriceType.less) b r = true ∧
        budgetPass (some PriceType.more) b r = true) ∧
    (∀ (rows : List Row) (ic cc : Bool) (item color : Option String) (b : Nat),
      (itemColorFilter rows ic cc item color).filter
          (fun r => budgetPass (some PriceType.less) b r &&
            budgetPass (some PriceType.more) b r) =
        (itemColorFilter rows ic cc item color).filter
          (fun r => r.price == some ((b : Nat) : ℚ))) := by
  constructor
  · intro p b r hp hpb
    simp [budgetPass, hp, hpb]
  · intro rows ic cc item color b
    apply List.filter_congr
    intro r _
    cases hr : r.price with
    | none => simp [budgetPass, hr]
    | some p =>
      simp only [budgetPass, hr, Bool.and_eq_true, decide_eq_true_eq, beq_iff_eq,
        Option.some.injEq]
      rw [Bool.eq_iff_iff]
      simp only [Bool.and_eq_true, decide_eq_true_eq, beq_iff_eq, Option.some.injEq]
      constructor
      · intro hb
        exact le_antisymm hb.1 hb.2
      · intro hb
        exact ⟨le_of_eq hb, ge_of_eq hb⟩

theorem budget_filter_inclusive_boundary_witness :
    budgetPass (some PriceType.less) 80
        ⟨some "Boundary Coat", none, none, some ((80 : Nat) : ℚ), none, none⟩ = true ∧
      budgetPass (some PriceType.more) 80
        ⟨some "Boundary Coat", none, none, some ((80 : Nat) : ℚ), none, none⟩ = true :=
  budget_filter_inclusive_boundary.1 ((80 : Nat) : ℚ) 80
    ⟨some "Boundary Coat", none, none, some ((80 : Nat) : ℚ), none, none⟩ rfl rfl

/-- C5.  Any utterance word-matching a stop phrase resets the whole
session from any step: step back to greet, all four slots nulled, a fixed
farewell reply, and no search call.  The statement holds for every context,
so the branch takes priority over the budget short-circuit and every
step-driven branch. -/
theorem stop_phrase_resets (ctx : Ctx) (input : String) :
    stopAny (pyStrip (lowerL input.data)) = true →
    generate_reply ctx input = ⟨resetCtx, farewellMsg, []⟩ := by
  intro h
  simp [generate_reply, h]

theorem stop_phrase_resets_witness :
    generate_reply
        ⟨some "blue jeans", some "blue", some 10, some PriceType.less, Step.askBudget⟩
        "bye" = ⟨resetCtx, farewellMsg, []⟩ :=
  stop_phrase_resets
    ⟨some "blue jeans", some "blue", some 10, some PriceType.less, Step.askBudget⟩
    "bye" (by decide)

/-- C6.  A non-stop utterance matching the budget gate re-extracts only
budget and direction: item, color and step are left unchanged, budget and
price_type are overwritten with the extracted values, and exactly one
search runs, on the session's current item/color plus the new
budget/direction, whose rendered result (or no-match message) is the
reply. -/
theorem budget_shortcircuit_frame (ctx : Ctx) (input : String) :
    stopAny (pyStrip (lowerL input.data)) = false →
    gateScan (pyStrip (lowerL input.data)) = true →
    (generate_reply ctx input).ctx.item = ctx.item ∧
    (generate_reply ctx input).ctx.color = ctx.color ∧
    (generate_reply ctx input).ctx.step = ctx.step ∧
    (generate_reply ctx input).ctx.budget =
      (extract_filters demoItems ⟨pyStrip (lowerL input.data)⟩).2.2.1 ∧
    (generate_reply ctx input).ctx.price_type =
      (extract_filters demoItems ⟨pyStrip (lowerL input.data)⟩).2.2.2 ∧
    (generate_reply ctx input).calls =
      [⟨ctx.item, ctx.color,
        (extract_filters demoItems ⟨pyStrip (lowerL input.data)⟩).2.2.1,
        (extract_filters demoItems ⟨pyStrip (lowerL input.data)⟩).2.2.2⟩] ∧
    (generate_reply ctx input).reply =
      searchReply
        (search_products demoRows true true true ctx.item ctx.color
          (extract_filters demoItems ⟨pyStrip (lowerL input.data)⟩).2.2.1
          (extract_filters demoItems ⟨pyStrip (lowerL input.data)⟩).2.2.2)
        ctx.item ctx.color
        (extract_filters demoItems ⟨pyStrip (lowerL input.data)⟩).2.2.1
        (extract_filters demoItems ⟨pyStrip (lowerL input.data)⟩).2.2.2
        (noRangeMsg ctx.item) := by
  intro h1 h2
  simp [generate_reply, h1, h2]

theorem budget_shortcircuit_frame_witness :
    ((generate_reply ⟨some "blue jeans", none, none, none, Step.greet⟩ "under 80").ctx.item
        = some "blue jeans" ∧
      (generate_reply ⟨some "blue jeans", none, none, none, Step.greet⟩ "under 80").ctx.step
        = Step.greet) ∧
    (generate_reply ⟨some "blue jeans", none, none, none, Step.greet⟩ "under 80").calls
      = [⟨some "blue jeans", none,
          (extract_filters demoItems ⟨pyStrip (lowerL "under 80".data)⟩).2.2.1,
          (extract_filters demoItems ⟨pyStrip (lowerL "under 80".data)⟩).2.2.2⟩] := by
  have h := budget_shortcircuit_frame ⟨some "blue jeans", none, none, none, Step.greet⟩
    "under 80" (by decide) (by decide)
  exact ⟨⟨h.1, h.2.2.1⟩, h.2.2.2.2.2.1⟩

/-- C10.  In step ask_item, a non-stop, non-budget utterance overwrites
both the item and color slots with whatever this single utterance extracts
(color becomes null when none is recognized, erasing any previous value),
advances the step to ask_color, and runs no search. -/
theorem ask_item_overwrites_slots (ctx : Ctx) (input : String) :
    ctx.step = Step.askItem →
    stopAny (pyStrip (lowerL input.data)) = false →
    gateScan (pyStrip (lowerL input.data)) = false →
    (generate_reply ctx input).ctx.item =
      (extract_filters demoItems ⟨pyStrip (lowerL input.data)⟩).1 ∧
    (generate_reply ctx input).ctx.color =
      (extract_filters demoItems ⟨pyStrip (lowerL input.data)⟩).2.1 ∧
    (generate_reply ctx input).ctx.step = Step.askColor ∧
    (generate_reply ctx input).ctx.budget = ctx.budget ∧
    (generate_reply ctx input).ctx.price_type = ctx.price_type ∧
    (generate_reply ctx input).calls = [] ∧
    ((extract_filters demoItems ⟨pyStrip (lowerL input.data)⟩).2.1 = none →
      (generate_reply ctx input).ctx.color = none) := by
  intro hstep h1 h2
  obtain ⟨i, c, b, pt, st⟩ := ctx
  have hst : st = Step.askItem := hstep
  subst hst
  refine ⟨?_, ?_, ?_, ?_, ?_, ?_, ?_⟩
  · simp [generate_reply, h1, h2]
  · simp [generate_reply, h1, h2]
  · simp [generate_reply, h1, h2]
  · simp [generate_reply, h1, h2]
  · simp [generate_reply, h1, h2]
  · simp [generate_reply, h1, h2]
  · intro hc
    simp [generate_reply, h1, h2, hc]

theorem ask_item_overwrites_slots_witness :
    ((generate_reply ⟨none, some "blue", none, none, Step.askItem⟩ "green hoodie").ctx.item
        = (extract_filters demoItems ⟨pyStrip (lowerL "green hoodie".data)⟩).1 ∧
      (generate_reply ⟨none, some "blue", none, none, Step.askItem⟩ "green hoodie").ctx.color
        = (extract_filters demoItems ⟨pyStrip (lowerL "green hoodie".data)⟩).2.1) ∧
    (generate_reply ⟨none, some "blue", none, none, Step.askItem⟩ "green hoodie").ctx.step
      = Step.askColor := by
  have h := ask_item_overwrites_slots ⟨none, some "blue", none, none, Step.askItem⟩
    "green hoodie" rfl (by decide) (by decide)
  exact ⟨⟨h.1, h.2.1⟩, h.2.2.1⟩

unseal Rat.mul Rat.inv Rat.add in
/-- C7 counterexample.  From step greet, "blue jeans under 80" takes the
budget short-circuit, which reads item/color from the session slots (still
null in greet) and not from the utterance: the single search call carries
item=None, not item="blue jeans", and the search result is not just the
Blue Jeans row. -/
theorem one_shot_budget_counterexample :
    (generate_reply resetCtx "blue jeans under 80").calls =
      [⟨none, none, some 80, some PriceType.less⟩] ∧
    (⟨none, none, some 80, some PriceType.less⟩ : SearchCall) ≠
      ⟨some "blue jeans", none, some 80, some PriceType.less⟩ ∧
    search_products demoRows true true true none none (some 80)
        (some PriceType.less) ≠
      some [⟨some "Blue Jeans", some "Bottoms", some "Blue",
        some ((4999 : ℚ) / 100), some "Vancouver", some "DenimCo"⟩] := by
  decide

unseal Rat.mul Rat.inv Rat.add in
/-- C7 amended.  "blue jeans under 80" from greet runs one search with
item=None, color=None, budget=80, direction=less; it returns the three
cheapest rows at most $80 (Yellow Scarf, White T-Shirt, Blue Jeans), and
the response text contains "$49.99". -/
theorem one_shot_budget_amended :
    (generate_reply resetCtx "blue jeans under 80").calls =
      [⟨none, none, some 80, some PriceType.less⟩] ∧
    (search_products demoRows true true true none none (some 80)
        (some PriceType.less)).map (fun l => l.map (fun r => r.item)) =
      some [some "Yellow Scarf", some "White T-Shirt", some "Blue Jeans"] ∧
    containsSub "$49.99".data
      (generate_reply resetCtx "blue jeans under 80").reply.data = true := by
  decide

/-- C8 counterexample.  On the demo catalog the item scan of
`extract_filters` matches the full catalog item name "red dress" inside the
utterance "red dress", so the extracted item and the stored slot are
"red dress", not "dress". -/
theorem red_dress_counterexample :
    (extract_filters demoItems "red dress").1 = some "red dress" ∧
    (some "red dress" : Option String) ≠ some "dress" ∧
    (generate_reply ⟨none, none, none, none, Step.askItem⟩ "red dress").ctx.item =
      some "red dress" := by
  decide

/-- C8 amended.  In step ask_item, "red dress" extracts item="red dress"
and color="red", the slots update accordingly, the step advances to
ask_color, and the reply asks for a color preference. -/
theorem red_dress_amended :
    (extract_filters demoItems "red dress").1 = some "red dress" ∧
    (extract_filters demoItems "red dress").2.1 = some "red" ∧
    (generate_reply ⟨none, none, none, none, Step.askItem⟩ "red dress").ctx =
      ⟨some "red dress", some "red", none, none, Step.askColor⟩ ∧
    (generate_reply ⟨none, none, none, none, Step.askItem⟩ "red dress").reply =
      "Nice choice! 🎯 Do you have a color preference for your red dress?" := by
  decide

/-- C9.  The comparison flow splits on "vs"/"and": with at least two
segments, both resolving yields the two-column comparison of the two
resolved rows, while if either (or both) fails to resolve only the
spelling warning is shown, with no partial table; with fewer than two
segments only the format-guidance message is shown.  The handler is a
total function, so no input raises. -/
theorem compare_flow_cases (input : String) :
    (2 ≤ (splitSegs (lowerL input.data)).length →
      (∀ p1 p2,
        find_product ⟨pyStrip ((splitSegs (lowerL input.data)).headD [])⟩ = some p1 →
        find_product ⟨pyStrip (((splitSegs (lowerL input.data)).drop 1).headD [])⟩
          = some p2 →
        compare_handler input = CompOutcome.table p1 p2 (compTable p1 p2)) ∧
      ((find_product ⟨pyStrip ((splitSegs (lowerL input.data)).headD [])⟩ = none ∨
        find_product ⟨pyStrip (((splitSegs (lowerL input.data)).drop 1).headD [])⟩
          = none) →
        compare_handler input = CompOutcome.warn)) ∧
    ((splitSegs (lowerL input.data)).length < 2 →
      compare_handler input = CompOutcome.info) := by
  constructor
  · intro hlen
    constructor
    · intro p1 p2 h1 h2
      simp only [compare_handler]
      rw [if_pos hlen, h1, h2]
    · intro hor
      simp only [compare_handler]
      rcases hor with h1 | h2
      · rw [if_pos hlen, h1]
        cases find_product ⟨pyStrip (((splitSegs (lowerL input.data)).drop 1).headD [])⟩ <;>
          rfl
      · rw [if_pos hlen, h2]
        cases find_product ⟨pyStrip ((splitSegs (lowerL input.data)).headD [])⟩ <;> rfl
  · intro hlen
    simp only [compare_handler]
    rw [if_neg (by omega)]

unseal Rat.mul Rat.inv Rat.add in
theorem compare_flow_cases_witness :
    compare_handler "black sneakers vs blue jeans" =
      CompOutcome.table
        ⟨some "Black Sneakers", some "Shoes", some "Black", some ((6999 : ℚ) / 100),
          some "Toronto", some "RunFast"⟩
        ⟨some "Blue Jeans", some "Bottoms", some "Blue", some ((4999 : ℚ) / 100),
          some "Vancouver", some "DenimCo"⟩
        (compTable
          ⟨some "Black Sneakers", some "Shoes", some "Black", some ((6999 : ℚ) / 100),
            some "Toronto", some "RunFast"⟩
          ⟨some "Blue Jeans", some "Bottoms", some "Blue", some ((4999 : ℚ) / 100),
            some "Vancouver", some "DenimCo"⟩) :=
  ((compare_flow_cases "black sneakers vs blue jeans").1 (by decide)).1
    ⟨some "Black Sneakers", some "Shoes", some "Black", some ((6999 : ℚ) / 100),
      some "Toronto", some "RunFast"⟩
    ⟨some "Blue Jeans", some "Bottoms", some "Blue", some ((4999 : ℚ) / 100),
      some "Vancouver", some "DenimCo"⟩
    (by decide) (by decide)

end Shop
